import Mathlib

/-!
Verification of the Run lifecycle core of the digitalhub SDK
(`src/digitalhub/entities/run/_base/entity.py`), the status factory
(`src/sdk/sdk/entities/builders/status.py`) and the executable/task
resolvers, as a shallow embedding in Lean.

Python dictionaries that carry status fields are embedded as association
lists `List (String × String)` with Python dict semantics: lookup, key
assignment (`d[k] = v`), `d.pop(k, None)` and the double-splat merge
`\x7b**a, **b\x7d`.
-/

/-- Exceptions raised by the embedded code: `EntityError` (domain error),
`IndexError` (unchecked out-of-range subscript), `ValueError`, and an
arbitrary exception raised by `Runtime.run` (carrying its `str(e)` text),
re-raised by `Run.run()`. -/
inductive PyExc where
  | entityError (msg : String)
  | indexError
  | valueError (msg : String)
  | engineError (msg : String)
  deriving DecidableEq, Repr

/-- A Python dict with string keys and values, as an association list. -/
abbrev StatusDict := List (String × String)

/-- Python `d.get(k)` / `d[k]`: first binding of key `k`, if any. -/
def dictLookup : StatusDict → String → Option String
  | [], _ => none
  | (k', v) :: rest, k => if k' = k then some v else dictLookup rest k

/-- Python `d[k] = v`: replace the first binding of `k` in place, or append. -/
def dictSet : StatusDict → String → String → StatusDict
  | [], k, v => [(k, v)]
  | (k', v') :: rest, k, v =>
      if k' = k then (k, v) :: rest else (k', v') :: dictSet rest k v

/-- Python `d.pop(k, None)`, restricted to the resulting dict: all bindings
of `k` removed. -/
def dictPop (d : StatusDict) (k : String) : StatusDict :=
  d.filter (fun p => p.1 != k)

/-- Python `\x7b**a, **b\x7d`: the keys of `a` in order with values overridden
by `b`, followed by the keys of `b` that are not in `a`. -/
def dictMerge (a b : StatusDict) : StatusDict :=
  a.map (fun p =>
    match dictLookup b p.1 with
    | some v => (p.1, v)
    | none => p)
  ++ b.filter (fun p => (dictLookup a p.1).isNone)

theorem dictLookup_append (l₁ l₂ : StatusDict) (k : String) :
    dictLookup (l₁ ++ l₂) k = (dictLookup l₁ k).orElse (fun _ => dictLookup l₂ k) := by
  induction l₁ with
  | nil => simp [dictLookup]
  | cons p rest ih =>
      obtain ⟨k', v⟩ := p
      by_cases h : k' = k <;> simp [dictLookup, h, ih]

theorem dictLookup_dictSet_self (d : StatusDict) (k v : String) :
    dictLookup (dictSet d k v) k = some v := by
  induction d with
  | nil => simp [dictSet, dictLookup]
  | cons p rest ih =>
      obtain ⟨k', v'⟩ := p
      by_cases h : k' = k <;> simp [dictSet, dictLookup, h, ih]

theorem dictLookup_dictSet_ne (d : StatusDict) (k v k' : String) (h : k' ≠ k) :
    dictLookup (dictSet d k v) k' = dictLookup d k' := by
  have hk : ¬ (k = k') := fun h' => h h'.symm
  induction d with
  | nil => simp [dictSet, dictLookup, hk]
  | cons p rest ih =>
      obtain ⟨k₀, v₀⟩ := p
      by_cases h₀ : k₀ = k
      · subst h₀
        simp [dictSet, dictLookup, hk]
      · by_cases h₁ : k₀ = k'
        · simp [dictSet, dictLookup, h₀, h₁, h]
        · simp [dictSet, dictLookup, h₀, h₁, ih]

theorem dictLookup_dictPop_self (d : StatusDict) (k : String) :
    dictLookup (dictPop d k) k = none := by
  induction d with
  | nil => simp [dictPop, dictLookup]
  | cons p rest ih =>
      obtain ⟨k', v⟩ := p
      by_cases h : k' = k
      · subst h
        have hfilt : dictPop ((k', v) :: rest) k' = dictPop rest k' := by
          simp [dictPop]
        rw [hfilt]
        exact ih
      · have hfilt : dictPop ((k', v) :: rest) k = (k', v) :: dictPop rest k := by
          simp [dictPop, h]
        rw [hfilt]
        simp [dictLookup, h, ih]

theorem dictLookup_dictPop_ne (d : StatusDict) (k k' : String) (h : k' ≠ k) :
    dictLookup (dictPop d k) k' = dictLookup d k' := by
  induction d with
  | nil => simp [dictPop, dictLookup]
  | cons p rest ih =>
      obtain ⟨k₀, v₀⟩ := p
      by_cases h₀ : k₀ = k
      · subst h₀
        have hk : ¬ (k₀ = k') := fun h' => h h'.symm
        have hfilt : dictPop ((k₀, v₀) :: rest) k₀ = dictPop rest k₀ := by
          simp [dictPop]
        rw [hfilt, ih]
        simp [dictLookup, hk]
      · have hfilt : dictPop ((k₀, v₀) :: rest) k = (k₀, v₀) :: dictPop rest k := by
          simp [dictPop, h₀]
        by_cases h₁ : k₀ = k'
        · rw [hfilt]
          simp [dictLookup, h₁]
        · rw [hfilt]
          simp [dictLookup, h₁, ih]

theorem dictLookup_map_override (a b : StatusDict) (k : String) :
    dictLookup (a.map (fun p =>
      match dictLookup b p.1 with
      | some v => (p.1, v)
      | none => p)) k =
    match dictLookup a k with
    | some v => some ((dictLookup b k).getD v)
    | none => none := by
  induction a with
  | nil => simp [dictLookup]
  | cons p rest ih =>
      obtain ⟨k', v'⟩ := p
      by_cases h : k' = k
      · subst h
        cases hb : dictLookup b k' <;> simp [dictLookup, hb]
      · cases hb : dictLookup b k' <;> simp [dictLookup, hb, h, ih]

theorem dictLookup_filter_notin (a b : StatusDict) (k : String) :
    dictLookup (b.filter (fun p => (dictLookup a p.1).isNone)) k =
    if (dictLookup a k).isNone then dictLookup b k else none := by
  induction b with
  | nil => simp [dictLookup]
  | cons p rest ih =>
      obtain ⟨k', v'⟩ := p
      by_cases h : k' = k
      · subst h
        cases ha : dictLookup a k' <;> simp [dictLookup, ha, ih]
      · cases ha : dictLookup a k' <;>
          cases ha' : dictLookup a k <;>
            simp [dictLookup, ha, ha', h, ih]

/-- Lookup in the Python merge `\x7b**a, **b\x7d`: `b` wins on every colliding
key, `a` supplies the rest. -/
theorem dictLookup_dictMerge (a b : StatusDict) (k : String) :
    dictLookup (dictMerge a b) k = (dictLookup b k).orElse (fun _ => dictLookup a k) := by
  rw [dictMerge, dictLookup_append, dictLookup_map_override, dictLookup_filter_notin]
  cases ha : dictLookup a k <;> cases hb : dictLookup b k <;> simp [ha, hb]

/-!
The Run state machine from `src/digitalhub/entities/run/_base/entity.py`.
-/

/-- Modelled from the spec: the digitalhub `State` enumeration
(`digitalhub.entities._commons.enums`, not present under `src/`; §4.3 of the
spec lists CREATED, BUILT, RUNNING, COMPLETED, ERROR, STOPPED). Each member's
`value` is its name, as in the sibling sdk `State` enum that is in `src/`. -/
inductive State where
  | CREATED
  | BUILT
  | RUNNING
  | COMPLETED
  | ERROR
  | STOPPED
  deriving DecidableEq, Repr

/-- Modelled from the spec: the string `value` of a `State` member. -/
def State.value : State → String
  | State.CREATED => "CREATED"
  | State.BUILT => "BUILT"
  | State.RUNNING => "RUNNING"
  | State.COMPLETED => "COMPLETED"
  | State.ERROR => "ERROR"
  | State.STOPPED => "STOPPED"

/-- A Run's spec: the fields the Run state machine reads
(`spec.local_execution` and the `spec.task` reference string). -/
structure RunSpec where
  local_execution : Bool
  task : String
  deriving DecidableEq, Repr

/-- A Run: its spec, its in-memory status dict and the status persisted on
the backend. `refresh()` copies backend to memory, `save()` memory to
backend. -/
structure RunModel where
  spec : RunSpec
  status : StatusDict
  backend : StatusDict
  deriving DecidableEq, Repr

/-- `self.refresh()`: re-read the entity from the backend. -/
def Run.refresh (r : RunModel) : RunModel :=
  { r with status := r.backend }

/-- `self.save(update=...)`: persist the in-memory entity. The `update`
flag selects create vs update on the wire; both persist the status. -/
def Run.save (r : RunModel) (update : Bool) : RunModel :=
  { r with backend := r.status }

/-- `Run._set_state`: `self.status.state = state`. -/
def Run.setState (r : RunModel) (state : String) : RunModel :=
  { r with status := dictSet r.status "state" state }

/-- `Run._set_message`: `self.status.message = message`. -/
def Run.setMessage (r : RunModel) (message : String) : RunModel :=
  { r with status := dictSet r.status "message" message }

/-- `Run._set_status`: rebuild the status object from a dict
(`build_status(self.kind, **status)`; the factory itself is an external
collaborator, §6 of the spec). -/
def Run.setStatus (r : RunModel) (status : StatusDict) : RunModel :=
  { r with status := status }

/-- `Run._is_ready_to_run`: state is BUILT or STOPPED. -/
def Run.isReadyToRun (r : RunModel) : Bool :=
  (dictLookup r.status "state" == some State.BUILT.value)
    || (dictLookup r.status "state" == some State.STOPPED.value)

/-- Observable steps taken by `Run.run()`, in order. `saveUpdateEv` records
the status dict persisted by that save. -/
inductive RunEvent where
  | refreshEv
  | setStateEv (state : String)
  | setMessageEv (message : String)
  | saveUpdateEv (persisted : StatusDict)
  | runtimeRunEv
  deriving DecidableEq, Repr

/-- The tail of `Run.run()` from the `try` block on: invoke
`self._get_runtime().run(self.to_dict())` (outcome `engine`: either a status
patch or an exception message), handle the exception branch, else merge the
returned status. Returns the event trace, the final Run and the exception
propagated to the caller, if any. -/
def Run.runEngine (r : RunModel) (engine : Except String StatusDict)
    (ev : List RunEvent) : List RunEvent × RunModel × Option PyExc :=
  match engine with
  | Except.error e =>
      let r1 := Run.refresh r
      let r2 := if r1.spec.local_execution then Run.setState r1 State.ERROR.value else r1
      let r3 := Run.setMessage r2 e
      let r4 := Run.save r3 true
      (ev ++ [RunEvent.runtimeRunEv, RunEvent.refreshEv]
          ++ (if r1.spec.local_execution then [RunEvent.setStateEv State.ERROR.value] else [])
          ++ [RunEvent.setMessageEv e, RunEvent.saveUpdateEv r4.backend],
        r4, some (PyExc.engineError e))
  | Except.ok status =>
      let r1 := Run.refresh r
      let status1 := if ! r1.spec.local_execution then dictPop status "state" else status
      let r2 := Run.setStatus r1 (dictMerge r1.status status1)
      let r3 := Run.save r2 true
      (ev ++ [RunEvent.runtimeRunEv, RunEvent.refreshEv, RunEvent.saveUpdateEv r3.backend],
        r3, none)

/-- `Run.run()`: refresh; if local execution, check readiness, set RUNNING
and save before invoking the runtime; then `Run.runEngine`. -/
def Run.runExec (r0 : RunModel) (engine : Except String StatusDict) :
    List RunEvent × RunModel × Option PyExc :=
  let r := Run.refresh r0
  if r.spec.local_execution then
    if ! Run.isReadyToRun r then
      ([RunEvent.refreshEv], r, some (PyExc.entityError "Run is not in a state to run."))
    else
      let r1 := Run.setState r State.RUNNING.value
      let r2 := Run.save r1 true
      Run.runEngine r2 engine
        [RunEvent.refreshEv, RunEvent.setStateEv State.RUNNING.value,
          RunEvent.saveUpdateEv r2.backend]
  else
    Run.runEngine r engine [RunEvent.refreshEv]

/-- The terminal states checked by `Run.wait()`. -/
def waitTerminalStates : List String :=
  [State.STOPPED.value, State.ERROR.value, State.COMPLETED.value]

/-- `time.sleep(5)`: the fixed polling interval of `Run.wait()`. -/
def waitSleepInterval : Nat := 5

/-- The loop condition of `Run.wait()`:
`self.status.state in [STOPPED, ERROR, COMPLETED]`. -/
def waitIsTerminal (status : StatusDict) : Bool :=
  match dictLookup status "state" with
  | some s => waitTerminalStates.contains s
  | none => false

/-- `Run.wait()`: loop \x7b refresh; sleep 5; return when state is terminal \x7d.
The backend is observed as the list of status dicts that successive
refreshes would see; the result is the number of polls, the sleep durations
in order, and the returned Run — `none` when the observation list runs out
with the loop still going (the source loops forever). -/
def Run.wait (r : RunModel) : List StatusDict → Option (Nat × List Nat × RunModel)
  | [] => none
  | st :: rest =>
      let r1 := Run.refresh { r with backend := st }
      if waitIsTerminal r1.status then
        some (1, [waitSleepInterval], r1)
      else
        match Run.wait r1 rest with
        | none => none
        | some (n, sleeps, rf) => some (n + 1, waitSleepInterval :: sleeps, rf)

/-- `Run.build()`: resolve the executable and task and ask the runtime for a
new spec dict, rebuilt into a spec object (`_get_executable`, `_get_task`,
`Runtime.build` and `build_spec` — bundled into `resolution`, an exception
in any of them propagating), then `_set_state(State.BUILT.value)` and
`self.save()`. -/
def Run.build (r : RunModel) (resolution : Except PyExc RunSpec) :
    Except PyExc RunModel :=
  match resolution with
  | Except.error e => Except.error e
  | Except.ok newSpec =>
      let r1 := { r with spec := newSpec }
      let r2 := Run.setState r1 State.BUILT.value
      Except.ok (Run.save r2 false)

/-!
The executable/task resolvers (`Run._get_executable`, `Run._get_task`).
-/

/-- Python `s.split(sep)` for a one-character separator, on the character
list of `s`: split at every occurrence, keeping empty segments; the result
is never empty. -/
def pySplitChar (c : Char) : List Char → List (List Char)
  | [] => [[]]
  | x :: xs =>
      match pySplitChar c xs with
      | [] => [[]]
      | h :: t => if x = c then [] :: h :: t else (x :: h) :: t

/-- The reference-parsing part of `Run._get_executable`:
`exec_name = self.spec.task.split("/")[-1].split(":")[0]` and
`exec_id = self.spec.task.split("/")[-1].split(":")[1]`; `none` models the
IndexError when the `[1]` piece is missing. The backend read that follows
is an external collaborator. -/
def Run.getExecNameId (task : String) : Option (String × String) :=
  match (pySplitChar '/' task.data).getLast? with
  | none => none
  | some lastSeg =>
      match pySplitChar ':' lastSeg with
      | a :: b :: _ => some (String.mk a, String.mk b)
      | _ => none

/-- A Task as `Run._get_task` reads it: `i.get("spec").get("function")`. -/
structure TaskModel where
  function : String
  deriving DecidableEq, Repr

/-- The reconstruction of the executable reference string in
`Run._get_task`: `exec_string` is `executable_kind` followed by `"://"`
followed by `self.spec.task.split("://")[1]`; `none` models the IndexError
when the task string has no `"://"`. -/
def Run.execString (executableKind task : String) : Option String :=
  match (task.splitOn "://").get? 1 with
  | some tail => some (executableKind ++ "://" ++ tail)
  | none => none

/-- `Run._get_task` after `exec_string` is built: in local-context mode,
linearly scan the listed tasks for one whose `spec.function` equals
`exec_string`, else raise `EntityError("Task not found.")`; in remote mode,
take element `[0]` of the filtered query result — an IndexError when the
result list is empty. The task listings are external collaborators, passed
in as `localTasks` / `remoteResult`. -/
def Run.getTask (execStr : String) (ctxLocal : Bool)
    (localTasks : List TaskModel) (remoteResult : List TaskModel) :
    Except PyExc TaskModel :=
  if ctxLocal then
    match localTasks.find? (fun t => t.function == execStr) with
    | some t => Except.ok t
    | none => Except.error (PyExc.entityError "Task not found.")
  else
    match remoteResult with
    | [] => Except.error PyExc.indexError
    | t :: _ => Except.ok t

/-!
The status factory from `src/sdk/sdk/entities/builders/status.py`.
-/

/-- The member names of the sdk `State` enumeration
(`src/sdk/sdk/entities/base/status.py`), i.e. the keys of
`State.__members__`. -/
def sdkStateMemberNames : List String :=
  ["BUILT", "COMPLETED", "CREATED", "ERROR", "IDLE", "PENDING", "READY",
    "RUNNING", "STOP"]

/-- `StatusBuilder._parse_arguments`: default an absent `state` to
`State.CREATED.value`; reject a `state` outside `State.__members__` with a
ValueError. -/
def StatusBuilder.parseArguments (kwargs : StatusDict) : Except PyExc StatusDict :=
  match dictLookup kwargs "state" with
  | none => Except.ok (dictSet kwargs "state" "CREATED")
  | some s =>
      if sdkStateMemberNames.contains s then Except.ok kwargs
      else Except.error (PyExc.valueError ("Invalid state: " ++ s))

/-- `StatusBuilder.build`: reject an unregistered module with a ValueError,
then `_parse_arguments(**kwargs)`; the status object is constructed from
the parsed kwargs, so its `state` attribute is the parsed `state` entry. -/
def StatusBuilder.build (modules : List String) (module : String)
    (kwargs : StatusDict) : Except PyExc StatusDict :=
  if modules.contains module then StatusBuilder.parseArguments kwargs
  else Except.error (PyExc.valueError ("Invalid module name: " ++ module))

/-!
Helper lemmas on the Python split.
-/

theorem pySplitChar_ne_nil (c : Char) (xs : List Char) : pySplitChar c xs ≠ [] := by
  induction xs with
  | nil => simp [pySplitChar]
  | cons x xs ih =>
      cases h : pySplitChar c xs with
      | nil => exact absurd h ih
      | cons hd tl =>
          by_cases hx : x = c <;> simp [pySplitChar, h, hx]

theorem pySplitChar_no_sep (c : Char) (xs : List Char) (h : c ∉ xs) :
    pySplitChar c xs = [xs] := by
  induction xs with
  | nil => rfl
  | cons x xs ih =>
      have hx : ¬ (x = c) := fun hxc => h (hxc ▸ List.mem_cons_self x xs)
      have h' : c ∉ xs := fun hm => h (List.mem_cons_of_mem x hm)
      simp [pySplitChar, ih h', hx]

theorem pySplitChar_append_sep (c : Char) (xs ys : List Char) :
    pySplitChar c (xs ++ c :: ys) = pySplitChar c xs ++ pySplitChar c ys := by
  induction xs with
  | nil =>
      obtain ⟨h', t', hys⟩ : ∃ h' t', pySplitChar c ys = h' :: t' := by
        cases hy : pySplitChar c ys with
        | nil => exact absurd hy (pySplitChar_ne_nil c ys)
        | cons a b => exact ⟨a, b, rfl⟩
      simp [pySplitChar, hys]
  | cons x xs ih =>
      obtain ⟨h', t', hxs⟩ : ∃ h' t', pySplitChar c xs = h' :: t' := by
        cases hx : pySplitChar c xs with
        | nil => exact absurd hx (pySplitChar_ne_nil c xs)
        | cons a b => exact ⟨a, b, rfl⟩
      by_cases hx : x = c <;>
        simp [pySplitChar, List.cons_append, ih, hxs, hx]

theorem pySplitChar_getLast (c : Char) (xs tail : List Char) (h : c ∉ tail) :
    (pySplitChar c (xs ++ c :: tail)).getLast? = some tail := by
  rw [pySplitChar_append_sep, pySplitChar_no_sep c tail h, List.getLast?_append]
  simp

/-!
Claim theorems.
-/

/-- C9: the executable-reference parser of `Run._get_executable`, applied to
a `spec.task` of the form
`exec-kind://project-context/task-kind/exec-name:exec-id`, yields
`exec_name` and `exec_id`, whenever name and id contain no separator
character. -/
theorem getExecNameId_standard_form (kind ctx tkind name id : String)
    (hn1 : '/' ∉ name.data) (hn2 : ':' ∉ name.data)
    (hi1 : '/' ∉ id.data) (hi2 : ':' ∉ id.data) :
    Run.getExecNameId
        (kind ++ "://" ++ ctx ++ "/" ++ tkind ++ "/" ++ name ++ ":" ++ id) =
      some (name, id) := by
  obtain ⟨nd⟩ := name
  obtain ⟨idd⟩ := id
  have htail : ('/' : Char) ∉ nd ++ ':' :: idd := by
    intro hm
    rcases List.mem_append.mp hm with hm | hm
    · exact hn1 hm
    · rcases List.mem_cons.mp hm with hm | hm
      · exact absurd hm (by decide)
      · exact hi1 hm
  have hcolon : (("://" : String)).data = [':', '/', '/'] := rfl
  have hslash : (("/" : String)).data = ['/'] := rfl
  have hcln : ((":" : String)).data = [':'] := rfl
  have hdata : (kind ++ "://" ++ ctx ++ "/" ++ tkind ++ "/" ++
        String.mk nd ++ ":" ++ String.mk idd).data
      = (kind.data ++ [':', '/'] ++ ('/' :: ctx.data) ++ ('/' :: tkind.data))
          ++ '/' :: (nd ++ ':' :: idd) := by
    simp [String.data_append, hcolon, hslash, hcln]
  have hlast : (pySplitChar '/' (kind ++ "://" ++ ctx ++ "/" ++ tkind ++ "/" ++
        String.mk nd ++ ":" ++ String.mk idd).data).getLast? =
      some (nd ++ ':' :: idd) := by
    rw [hdata]
    exact pySplitChar_getLast '/' _ _ htail
  have hsplit : pySplitChar ':' (nd ++ ':' :: idd) = [nd, idd] := by
    rw [pySplitChar_append_sep, pySplitChar_no_sep ':' nd hn2,
      pySplitChar_no_sep ':' idd hi2]
    rfl
  unfold Run.getExecNameId
  rw [hlast]
  simp [hsplit]

/-- Witness for C9 at the concrete task string from the spec. -/
theorem getExecNameId_standard_form_witness :
    Run.getExecNameId "job://proj/job/myfunc:abc123" =
      some ("myfunc", "abc123") := by
  have h := getExecNameId_standard_form "job" "proj" "job" "myfunc" "abc123"
    (by decide) (by decide) (by decide) (by decide)
  exact h

/-- C7: a successful `build()` leaves the Run in state BUILT and persists
it, regardless of prior state; a repeated `build()` ends in BUILT again. -/
theorem build_results_in_built (r : RunModel) (ns ns2 : RunSpec) :
    ∃ r1, Run.build r (Except.ok ns) = Except.ok r1 ∧
      dictLookup r1.status "state" = some State.BUILT.value ∧
      r1.backend = r1.status ∧
      ∃ r2, Run.build r1 (Except.ok ns2) = Except.ok r2 ∧
        dictLookup r2.status "state" = some State.BUILT.value := by
  refine ⟨_, rfl, ?_, rfl, _, rfl, ?_⟩
  · exact dictLookup_dictSet_self r.status "state" State.BUILT.value
  · exact dictLookup_dictSet_self _ "state" State.BUILT.value

/-- C8: status construction through the factory: with a registered module,
an absent `state` keyword yields a status whose state is CREATED; a
`state` string outside the enumeration fails with a ValueError. -/
theorem statusBuilder_default_and_invalid
    (modules : List String) (module : String) (kwargs : StatusDict)
    (hm : modules.contains module = true) :
    (dictLookup kwargs "state" = none →
      StatusBuilder.build modules module kwargs =
        Except.ok (dictSet kwargs "state" "CREATED") ∧
      dictLookup (dictSet kwargs "state" "CREATED") "state" = some "CREATED") ∧
    (∀ s, dictLookup kwargs "state" = some s →
      sdkStateMemberNames.contains s = false →
      StatusBuilder.build modules module kwargs =
        Except.error (PyExc.valueError ("Invalid state: " ++ s))) := by
  have hm' : module ∈ modules := by simpa using hm
  constructor
  · intro h
    constructor
    · simp [StatusBuilder.build, hm', StatusBuilder.parseArguments, h]
    · exact dictLookup_dictSet_self kwargs "state" "CREATED"
  · intro s hs hbad
    have hbad' : s ∉ sdkStateMemberNames := by simpa using hbad
    simp [StatusBuilder.build, hm', StatusBuilder.parseArguments, hs, hbad']

/-- Witness for C8: registered module, empty kwargs default to CREATED, and
an unknown state string is rejected. -/
theorem statusBuilder_default_and_invalid_witness :
    (StatusBuilder.build ["run"] "run" [] =
        Except.ok (dictSet [] "state" "CREATED") ∧
      dictLookup (dictSet ([] : StatusDict) "state" "CREATED") "state" =
        some "CREATED") ∧
    StatusBuilder.build ["run"] "run" [("state", "BOGUS")] =
      Except.error (PyExc.valueError ("Invalid state: " ++ "BOGUS")) := by
  refine ⟨(statusBuilder_default_and_invalid ["run"] "run" [] (by decide)).1 rfl, ?_⟩
  exact (statusBuilder_default_and_invalid ["run"] "run" [("state", "BOGUS")]
    (by decide)).2 "BOGUS" (by decide) (by decide)

/-- C5 as stated is false in remote mode: with an empty filtered result
list, `Run._get_task` raises an unchecked IndexError, which is not the
EntityError-class domain error the claim requires. -/
theorem getTask_remote_empty_counterexample :
    Run.getTask "job://proj/job/myfunc:abc123" false [] [] =
      Except.error PyExc.indexError ∧
    (Except.error PyExc.indexError : Except PyExc TaskModel) ≠
      Except.error (PyExc.entityError "Task not found.") := by
  constructor
  · rfl
  · intro h
    simp at h

/-- C5 amended: local-context lookup with no matching task fails with
EntityError("Task not found."); remote lookup with an empty filtered result
raises an IndexError (out-of-range), not a domain error. -/
theorem getTask_failure_modes (execStr : String) (localTasks : List TaskModel)
    (hnone : ∀ t ∈ localTasks, t.function ≠ execStr) :
    Run.getTask execStr true localTasks [] =
      Except.error (PyExc.entityError "Task not found.") ∧
    Run.getTask execStr false localTasks [] = Except.error PyExc.indexError := by
  constructor
  · have hfind : localTasks.find? (fun t => t.function == execStr) = none := by
      rw [List.find?_eq_none]
      intro t ht
      simpa using hnone t ht
    simp [Run.getTask, hfind]
  · simp [Run.getTask]

/-- Witness for C5 (amended): one non-matching task locally, empty remote
result. -/
theorem getTask_failure_modes_witness :
    Run.getTask "a" true [TaskModel.mk "b"] [] =
      Except.error (PyExc.entityError "Task not found.") ∧
    Run.getTask "a" false [TaskModel.mk "b"] [] =
      Except.error PyExc.indexError :=
  getTask_failure_modes "a" [TaskModel.mk "b"] (by decide)

/-- C2: local-execution run whose state is neither BUILT nor STOPPED:
`run()` fails with EntityError("Run is not in a state to run.") and leaves
the state unchanged, persisting nothing. -/
theorem run_not_ready_fails (r : RunModel) (engine : Except String StatusDict)
    (s : String)
    (hloc : r.spec.local_execution = true)
    (hmem : dictLookup r.status "state" = some s)
    (hback : dictLookup r.backend "state" = some s)
    (h1 : s ≠ State.BUILT.value) (h2 : s ≠ State.STOPPED.value) :
    Run.runExec r engine =
      ([RunEvent.refreshEv], Run.refresh r,
        some (PyExc.entityError "Run is not in a state to run.")) ∧
    dictLookup (Run.refresh r).status "state" = some s ∧
    (Run.refresh r).backend = r.backend := by
  have hnotready : Run.isReadyToRun
      { spec := r.spec, status := r.backend, backend := r.backend } = false := by
    simp [Run.isReadyToRun, hback, State.value]
    exact ⟨h1, h2⟩
  refine ⟨?_, ?_, rfl⟩
  · simp [Run.runExec, Run.refresh, hloc, hnotready]
  · simpa [Run.refresh] using hback

/-- Witness for C2: a local run whose state is CREATED. -/
theorem run_not_ready_fails_witness :
    Run.runExec ⟨⟨true, "t"⟩, [("state", "CREATED")], [("state", "CREATED")]⟩
        (Except.ok []) =
      ([RunEvent.refreshEv],
        Run.refresh ⟨⟨true, "t"⟩, [("state", "CREATED")], [("state", "CREATED")]⟩,
        some (PyExc.entityError "Run is not in a state to run.")) ∧
    dictLookup (Run.refresh
        ⟨⟨true, "t"⟩, [("state", "CREATED")], [("state", "CREATED")]⟩).status
      "state" = some "CREATED" ∧
    (Run.refresh
        ⟨⟨true, "t"⟩, [("state", "CREATED")], [("state", "CREATED")]⟩).backend =
      [("state", "CREATED")] :=
  run_not_ready_fails ⟨⟨true, "t"⟩, [("state", "CREATED")], [("state", "CREATED")]⟩
    (Except.ok []) "CREATED" rfl (by decide) (by decide) (by decide) (by decide)

/-- C3: if `Runtime.run` raises, `run()` re-raises the same exception after
refreshing, setting state ERROR exactly when `local_execution` is true,
always recording the exception text as the status message, and persisting. -/
theorem run_engine_error_bookkeeping (r : RunModel) (e : String)
    (hready : r.spec.local_execution = true →
      dictLookup r.backend "state" = some State.BUILT.value ∨
      dictLookup r.backend "state" = some State.STOPPED.value) :
    (Run.runExec r (Except.error e)).2.2 = some (PyExc.engineError e) ∧
    dictLookup (Run.runExec r (Except.error e)).2.1.status "message" = some e ∧
    (Run.runExec r (Except.error e)).2.1.backend =
      (Run.runExec r (Except.error e)).2.1.status ∧
    (r.spec.local_execution = true →
      dictLookup (Run.runExec r (Except.error e)).2.1.status "state" =
        some State.ERROR.value) ∧
    (r.spec.local_execution = false →
      dictLookup (Run.runExec r (Except.error e)).2.1.status "state" =
        dictLookup r.backend "state") := by
  cases hle : r.spec.local_execution with
  | false =>
      have hrun : Run.runExec r (Except.error e) =
        ([RunEvent.refreshEv, RunEvent.runtimeRunEv, RunEvent.refreshEv,
            RunEvent.setMessageEv e,
            RunEvent.saveUpdateEv (dictSet r.backend "message" e)],
          ⟨r.spec, dictSet r.backend "message" e, dictSet r.backend "message" e⟩,
          some (PyExc.engineError e)) := by
        simp [Run.runExec, Run.runEngine, Run.refresh, Run.setMessage, Run.save, hle]
      rw [hrun]
      refine ⟨rfl, dictLookup_dictSet_self _ _ _, rfl, ?_, ?_⟩
      · intro h
        simp at h
      · intro _
        exact dictLookup_dictSet_ne r.backend "message" e "state" (by decide)
  | true =>
      have hready' : Run.isReadyToRun
          { spec := r.spec, status := r.backend, backend := r.backend } = true := by
        rcases hready hle with h | h <;>
          simp [Run.isReadyToRun, h]
      have hrun : Run.runExec r (Except.error e) =
        ([RunEvent.refreshEv, RunEvent.setStateEv State.RUNNING.value,
            RunEvent.saveUpdateEv (dictSet r.backend "state" State.RUNNING.value),
            RunEvent.runtimeRunEv, RunEvent.refreshEv,
            RunEvent.setStateEv State.ERROR.value, RunEvent.setMessageEv e,
            RunEvent.saveUpdateEv (dictSet (dictSet (dictSet r.backend "state"
              State.RUNNING.value) "state" State.ERROR.value) "message" e)],
          ⟨r.spec,
            dictSet (dictSet (dictSet r.backend "state" State.RUNNING.value)
              "state" State.ERROR.value) "message" e,
            dictSet (dictSet (dictSet r.backend "state" State.RUNNING.value)
              "state" State.ERROR.value) "message" e⟩,
          some (PyExc.engineError e)) := by
        simp [Run.runExec, Run.runEngine, Run.refresh, Run.setState,
          Run.setMessage, Run.save, hle, hready']
      rw [hrun]
      refine ⟨rfl, dictLookup_dictSet_self _ _ _, rfl, ?_, ?_⟩
      · intro _
        rw [dictLookup_dictSet_ne _ "message" e "state" (by decide)]
        exact dictLookup_dictSet_self _ "state" State.ERROR.value
      · intro h
        simp at h

/-- Witness for C3: a local run in state BUILT whose engine raises "boom". -/
theorem run_engine_error_bookkeeping_witness :
    (Run.runExec ⟨⟨true, "t"⟩, [("state", "BUILT")], [("state", "BUILT")]⟩
        (Except.error "boom")).2.2 = some (PyExc.engineError "boom") ∧
    dictLookup (Run.runExec ⟨⟨true, "t"⟩, [("state", "BUILT")], [("state", "BUILT")]⟩
        (Except.error "boom")).2.1.status "message" = some "boom" ∧
    dictLookup (Run.runExec ⟨⟨true, "t"⟩, [("state", "BUILT")], [("state", "BUILT")]⟩
        (Except.error "boom")).2.1.status "state" = some State.ERROR.value := by
  have h := run_engine_error_bookkeeping
    ⟨⟨true, "t"⟩, [("state", "BUILT")], [("state", "BUILT")]⟩ "boom"
    (fun _ => Or.inl (by decide))
  exact ⟨h.1, h.2.1, h.2.2.2.1 rfl⟩

/-- C4: non-local run, successful engine: the `state` key is removed from
the engine patch before merging, so the state persisted by `run()` equals
the pre-run backend state, whatever the patch carried. -/
theorem run_nonlocal_state_not_overwritten (r : RunModel) (patch : StatusDict)
    (hloc : r.spec.local_execution = false) :
    (Run.runExec r (Except.ok patch)).2.2 = none ∧
    dictLookup (Run.runExec r (Except.ok patch)).2.1.status "state" =
      dictLookup r.backend "state" ∧
    (Run.runExec r (Except.ok patch)).2.1.backend =
      (Run.runExec r (Except.ok patch)).2.1.status := by
  have hrun : Run.runExec r (Except.ok patch) =
    ([RunEvent.refreshEv, RunEvent.runtimeRunEv, RunEvent.refreshEv,
        RunEvent.saveUpdateEv (dictMerge r.backend (dictPop patch "state"))],
      ⟨r.spec, dictMerge r.backend (dictPop patch "state"),
        dictMerge r.backend (dictPop patch "state")⟩,
      none) := by
    simp [Run.runExec, Run.runEngine, Run.refresh, Run.setStatus, Run.save, hloc]
  rw [hrun]
  refine ⟨rfl, ?_, rfl⟩
  rw [dictLookup_dictMerge, dictLookup_dictPop_self]
  rfl

/-- Witness for C4: non-local run in backend state RUNNING, engine patch
claiming COMPLETED — the state stays RUNNING. -/
theorem run_nonlocal_state_not_overwritten_witness :
    (Run.runExec ⟨⟨false, "t"⟩, [("state", "RUNNING")], [("state", "RUNNING")]⟩
        (Except.ok [("state", "COMPLETED")])).2.2 = none ∧
    dictLookup (Run.runExec
        ⟨⟨false, "t"⟩, [("state", "RUNNING")], [("state", "RUNNING")]⟩
        (Except.ok [("state", "COMPLETED")])).2.1.status "state" =
      dictLookup [("state", "RUNNING")] "state" ∧
    (Run.runExec ⟨⟨false, "t"⟩, [("state", "RUNNING")], [("state", "RUNNING")]⟩
        (Except.ok [("state", "COMPLETED")])).2.1.backend =
      (Run.runExec ⟨⟨false, "t"⟩, [("state", "RUNNING")], [("state", "RUNNING")]⟩
        (Except.ok [("state", "COMPLETED")])).2.1.status :=
  run_nonlocal_state_not_overwritten
    ⟨⟨false, "t"⟩, [("state", "RUNNING")], [("state", "RUNNING")]⟩
    [("state", "COMPLETED")] rfl

/-- C10: on the success path the new status is the Python dict union of the
refreshed existing status and the engine patch (its `state` key dropped
first for non-local runs): engine fields win on every colliding key and
keys present only in the existing status are preserved. -/
theorem run_success_status_merge (r : RunModel) (patch : StatusDict) (k : String)
    (hready : r.spec.local_execution = true →
      dictLookup r.backend "state" = some State.BUILT.value ∨
      dictLookup r.backend "state" = some State.STOPPED.value) :
    (Run.runExec r (Except.ok patch)).2.2 = none ∧
    dictLookup (Run.runExec r (Except.ok patch)).2.1.status k =
      (dictLookup (if r.spec.local_execution = true then patch
          else dictPop patch "state") k).orElse
        (fun _ => dictLookup
          (if r.spec.local_execution = true
            then dictSet r.backend "state" State.RUNNING.value
            else r.backend) k) := by
  cases hle : r.spec.local_execution with
  | false =>
      have hrun : Run.runExec r (Except.ok patch) =
        ([RunEvent.refreshEv, RunEvent.runtimeRunEv, RunEvent.refreshEv,
            RunEvent.saveUpdateEv (dictMerge r.backend (dictPop patch "state"))],
          ⟨r.spec, dictMerge r.backend (dictPop patch "state"),
            dictMerge r.backend (dictPop patch "state")⟩,
          none) := by
        simp [Run.runExec, Run.runEngine, Run.refresh, Run.setStatus, Run.save, hle]
      rw [hrun]
      exact ⟨rfl, by simp [dictLookup_dictMerge]⟩
  | true =>
      have hready' : Run.isReadyToRun
          { spec := r.spec, status := r.backend, backend := r.backend } = true := by
        rcases hready hle with h | h <;>
          simp [Run.isReadyToRun, h]
      have hrun : Run.runExec r (Except.ok patch) =
        ([RunEvent.refreshEv, RunEvent.setStateEv State.RUNNING.value,
            RunEvent.saveUpdateEv (dictSet r.backend "state" State.RUNNING.value),
            RunEvent.runtimeRunEv, RunEvent.refreshEv,
            RunEvent.saveUpdateEv (dictMerge
              (dictSet r.backend "state" State.RUNNING.value) patch)],
          ⟨r.spec, dictMerge (dictSet r.backend "state" State.RUNNING.value) patch,
            dictMerge (dictSet r.backend "state" State.RUNNING.value) patch⟩,
          none) := by
        simp [Run.runExec, Run.runEngine, Run.refresh, Run.setState,
          Run.setStatus, Run.save, hle, hready']
      rw [hrun]
      exact ⟨rfl, by simp [dictLookup_dictMerge]⟩

/-- Witness for C10: local run in state BUILT; the engine patch overrides
the state and an existing-only key is looked up. -/
theorem run_success_status_merge_witness :
    (Run.runExec ⟨⟨true, "t"⟩, [("state", "BUILT"), ("note", "keep")],
        [("state", "BUILT"), ("note", "keep")]⟩
      (Except.ok [("state", "COMPLETED")])).2.2 = none ∧
    dictLookup (Run.runExec ⟨⟨true, "t"⟩, [("state", "BUILT"), ("note", "keep")],
        [("state", "BUILT"), ("note", "keep")]⟩
      (Except.ok [("state", "COMPLETED")])).2.1.status "note" =
      (dictLookup (if (true : Bool) = true then [("state", "COMPLETED")]
          else dictPop [("state", "COMPLETED")] "state") "note").orElse
        (fun _ => dictLookup
          (if (true : Bool) = true
            then dictSet [("state", "BUILT"), ("note", "keep")] "state"
              State.RUNNING.value
            else [("state", "BUILT"), ("note", "keep")]) "note") :=
  run_success_status_merge
    ⟨⟨true, "t"⟩, [("state", "BUILT"), ("note", "keep")],
      [("state", "BUILT"), ("note", "keep")]⟩
    [("state", "COMPLETED")] "note" (fun _ => Or.inl (by decide))

/-- C1: local-execution run whose persisted state is BUILT: `run()` sets
state RUNNING and persists it (save with update) strictly before invoking
the runtime — the trace starts refresh, set RUNNING, save-with-RUNNING,
runtime — and ends in COMPLETED when the engine succeeds reporting
COMPLETED, in ERROR when the engine raises. -/
theorem run_local_built_lifecycle (r : RunModel) (engine : Except String StatusDict)
    (hloc : r.spec.local_execution = true)
    (hstate : dictLookup r.backend "state" = some State.BUILT.value) :
    ((Run.runExec r engine).1.take 4 =
        [RunEvent.refreshEv, RunEvent.setStateEv State.RUNNING.value,
          RunEvent.saveUpdateEv (dictSet r.backend "state" State.RUNNING.value),
          RunEvent.runtimeRunEv] ∧
      dictLookup (dictSet r.backend "state" State.RUNNING.value) "state" =
        some State.RUNNING.value) ∧
    (∀ patch, engine = Except.ok patch →
      dictLookup patch "state" = some State.COMPLETED.value →
      (Run.runExec r engine).2.2 = none ∧
      dictLookup (Run.runExec r engine).2.1.status "state" =
        some State.COMPLETED.value ∧
      (Run.runExec r engine).2.1.backend = (Run.runExec r engine).2.1.status) ∧
    (∀ e, engine = Except.error e →
      (Run.runExec r engine).2.2 = some (PyExc.engineError e) ∧
      dictLookup (Run.runExec r engine).2.1.status "state" =
        some State.ERROR.value ∧
      (Run.runExec r engine).2.1.backend = (Run.runExec r engine).2.1.status) := by
  have hready' : Run.isReadyToRun
      { spec := r.spec, status := r.backend, backend := r.backend } = true := by
    simp [Run.isReadyToRun, hstate]
  cases engine with
  | ok patch =>
      have hrun : Run.runExec r (Except.ok patch) =
        ([RunEvent.refreshEv, RunEvent.setStateEv State.RUNNING.value,
            RunEvent.saveUpdateEv (dictSet r.backend "state" State.RUNNING.value),
            RunEvent.runtimeRunEv, RunEvent.refreshEv,
            RunEvent.saveUpdateEv (dictMerge
              (dictSet r.backend "state" State.RUNNING.value) patch)],
          ⟨r.spec, dictMerge (dictSet r.backend "state" State.RUNNING.value) patch,
            dictMerge (dictSet r.backend "state" State.RUNNING.value) patch⟩,
          none) := by
        simp [Run.runExec, Run.runEngine, Run.refresh, Run.setState,
          Run.setStatus, Run.save, hloc, hready']
      rw [hrun]
      refine ⟨⟨rfl, dictLookup_dictSet_self _ _ _⟩, ?_, ?_⟩
      · intro p hp hpstate
        obtain rfl : patch = p := by injection hp
        refine ⟨rfl, ?_, rfl⟩
        rw [dictLookup_dictMerge, hpstate]
        rfl
      · intro e he
        simp at he
  | error e =>
      have hrun : Run.runExec r (Except.error e) =
        ([RunEvent.refreshEv, RunEvent.setStateEv State.RUNNING.value,
            RunEvent.saveUpdateEv (dictSet r.backend "state" State.RUNNING.value),
            RunEvent.runtimeRunEv, RunEvent.refreshEv,
            RunEvent.setStateEv State.ERROR.value, RunEvent.setMessageEv e,
            RunEvent.saveUpdateEv (dictSet (dictSet (dictSet r.backend "state"
              State.RUNNING.value) "state" State.ERROR.value) "message" e)],
          ⟨r.spec,
            dictSet (dictSet (dictSet r.backend "state" State.RUNNING.value)
              "state" State.ERROR.value) "message" e,
            dictSet (dictSet (dictSet r.backend "state" State.RUNNING.value)
              "state" State.ERROR.value) "message" e⟩,
          some (PyExc.engineError e)) := by
        simp [Run.runExec, Run.runEngine, Run.refresh, Run.setState,
          Run.setMessage, Run.save, hloc, hready']
      rw [hrun]
      refine ⟨⟨rfl, dictLookup_dictSet_self _ _ _⟩, ?_, ?_⟩
      · intro p hp
        simp at hp
      · intro e' he
        obtain rfl : e = e' := by injection he
        refine ⟨rfl, ?_, rfl⟩
        rw [dictLookup_dictSet_ne _ "message" e "state" (by decide)]
        exact dictLookup_dictSet_self _ "state" State.ERROR.value

/-- Witness for C1: a local run persisted as BUILT whose engine succeeds
reporting COMPLETED. -/
theorem run_local_built_lifecycle_witness :
    (Run.runExec ⟨⟨true, "t"⟩, [("state", "BUILT")], [("state", "BUILT")]⟩
        (Except.ok [("state", "COMPLETED")])).1.take 4 =
      [RunEvent.refreshEv, RunEvent.setStateEv State.RUNNING.value,
        RunEvent.saveUpdateEv
          (dictSet [("state", "BUILT")] "state" State.RUNNING.value),
        RunEvent.runtimeRunEv] ∧
    (Run.runExec ⟨⟨true, "t"⟩, [("state", "BUILT")], [("state", "BUILT")]⟩
        (Except.ok [("state", "COMPLETED")])).2.2 = none ∧
    dictLookup (Run.runExec
        ⟨⟨true, "t"⟩, [("state", "BUILT")], [("state", "BUILT")]⟩
        (Except.ok [("state", "COMPLETED")])).2.1.status "state" =
      some State.COMPLETED.value := by
  have h := run_local_built_lifecycle
    ⟨⟨true, "t"⟩, [("state", "BUILT")], [("state", "BUILT")]⟩
    (Except.ok [("state", "COMPLETED")]) rfl (by decide)
  exact ⟨h.1.1, (h.2.1 [("state", "COMPLETED")] rfl (by decide)).1,
    (h.2.1 [("state", "COMPLETED")] rfl (by decide)).2.1⟩

/-- C6: `Run.wait()` sleeps a fixed 5-unit interval on every poll and
returns exactly at the first refresh that shows a terminal state (STOPPED,
ERROR or COMPLETED): with `pre` non-terminal observations followed by a
terminal `st`, it returns after `pre.length + 1` polls, one 5-unit sleep
per poll, with `st` as the returned Run's status. -/
theorem wait_returns_at_first_terminal (r : RunModel) (pre : List StatusDict)
    (st : StatusDict) (rest : List StatusDict)
    (hpre : ∀ d ∈ pre, waitIsTerminal d = false)
    (hst : waitIsTerminal st = true) :
    Run.wait r (pre ++ st :: rest) =
      some (pre.length + 1,
        List.replicate (pre.length + 1) waitSleepInterval,
        ⟨r.spec, st, st⟩) := by
  induction pre generalizing r with
  | nil =>
      simp [Run.wait, Run.refresh, hst]
  | cons d pre ih =>
      have hd : waitIsTerminal d = false := hpre d (List.mem_cons_self d pre)
      have hpre' : ∀ x ∈ pre, waitIsTerminal x = false :=
        fun x hx => hpre x (List.mem_cons_of_mem d hx)
      have hrec := ih { spec := r.spec, status := d, backend := d } hpre'
      simp [Run.wait, Run.refresh, hd, hrec, List.replicate_succ]

/-- Witness for C6: a backend showing RUNNING then COMPLETED — `wait()`
returns after exactly 2 polls with state COMPLETED. -/
theorem wait_returns_at_first_terminal_witness :
    Run.wait ⟨⟨false, "t"⟩, [("state", "CREATED")], [("state", "CREATED")]⟩
        [[("state", "RUNNING")], [("state", "COMPLETED")]] =
      some (2, [5, 5],
        ⟨⟨false, "t"⟩, [("state", "COMPLETED")], [("state", "COMPLETED")]⟩) := by
  have h := wait_returns_at_first_terminal
    ⟨⟨false, "t"⟩, [("state", "CREATED")], [("state", "CREATED")]⟩
    [[("state", "RUNNING")]] [("state", "COMPLETED")] []
    (by decide) (by decide)
  simpa using h
